import Mathlib

/-!
Verification of the GE-to-ISMRMRD header conversion pipeline
(src/src/GERawConverter.cpp) against its natural-language specification.

The C++ source is shallowly embedded: the session object `GERawConverter`,
its constructor, the three stylesheet entry points, the header projection
`ge_header_to_xml`, the XSLT transform driver `getIsmrmrdXMLHeader` and the
acquisition dispatch `getAcquisitions` become Lean functions.  External
collaborators (the Orchestra SDK raw-header abstraction, libxml2/libxslt)
are modelled at their interface boundary exactly as the spec describes them.
-/

namespace GEToIsmrmrd

/-- The two raw container kinds stored in the member `rawObjectType_`. -/
inductive RawObjectType where
  | SCAN_ARCHIVE_RAW_TYPE
  | PFILE_RAW_TYPE
deriving DecidableEq, Repr

/-- The closed set of strategy implementations selected by classname in the
constructor if/else-if chain. -/
inductive SequenceConverter where
  | GenericConverter
  | NIH2dfastConverter
  | NIHepiConverter
deriving DecidableEq, Repr

/-- Modelled from the spec: the raw-header abstraction (Orchestra processing
control) exposes typed scalar field lookup by name; a field is either present
with a value or absent (a lookup of an absent or type-mismatched field fails
hard).  Only the fields the projection actually reads are modelled; the same
shape serves both the main processing control and the EPI processing control
derived from the download data. -/
structure ProcessingControl where
  is3DAcquisition : Option Bool := none
  assetCalibration : Option Bool := none
  numSlices : Option Int := none
  numChannels : Option Int := none
  seriesNumber : Option Int := none
  examNumber : Option Int := none
  coilConfigUID : Option Nat := none
  sliceTable : Option Unit := none
  integratedReferenceScan : Option Bool := none
  multibandEnabled : Option Bool := none
  extraFramesTop : Option Int := none
  acquiredYRes : Option Int := none
  extraFramesBottom : Option Int := none
deriving DecidableEq, Repr

/-- Modelled from the spec: the DICOM-style identity objects
(series/study/patient/equipment modules and the image module) reached from
the download data, each exposing string fields whose read can fail at the
SDK boundary. -/
structure DicomData where
  seriesUID : Option String := none
  seriesDescription : Option String := none
  studyUID : Option String := none
  patientName : Option String := none
  patientID : Option String := none
  manufacturer : Option String := none
  echoTime : Option String := none
  repetitionTime : Option String := none
deriving DecidableEq, Repr

/-- Modelled from the spec: the LxDownloadData handle.  `isCalibration` and
`isEpi` are the acquisition-family flags; `epiControl` is the processing
control produced by `GERecon::Epi::LxControlSource(lxData)` in the EPI branch
of the projection. -/
structure LxDownloadData where
  isCalibration : Bool
  isEpi : Bool
  dicom : DicomData
  epiControl : ProcessingControl
deriving DecidableEq, Repr

/-- Modelled from the spec: a loaded ScanArchive.  `availableControlCount` is
what `ArchiveStorage::Create(archive)->AvailableControlCount()` reports. -/
structure ScanArchive where
  availableControlCount : Int
  lxData : LxDownloadData
  processingControl : ProcessingControl
deriving DecidableEq, Repr

/-- Modelled from the spec: a loaded legacy P-File. -/
structure Pfile where
  lxData : LxDownloadData
  processingControl : ProcessingControl
deriving DecidableEq, Repr

/-- One acquisition record, opaque for this development. -/
structure AcquisitionRecord where
  id : Nat
deriving DecidableEq, Repr

/-- The conversion session, mirroring the members of the C++ class
`GERawConverter`: the container kind, the two (optional) container handles of
which exactly one is assigned by the constructor, the download data, the main
processing control, the selected strategy and the stored stylesheet text
(empty until one of the useStylesheet entry points is called). -/
structure GERawConverter where
  rawObjectType : RawObjectType
  scanArchive : Option ScanArchive
  pfile : Option Pfile
  lxData : LxDownloadData
  processingControl : ProcessingControl
  converter : SequenceConverter
  stylesheet : String
deriving DecidableEq, Repr

/-- The world outside the session: file inspection and the SDK loaders used
by the constructor, and raw file contents used by `useStylesheetFilename`. -/
structure ConversionEnv where
  isArchiveFilePath : String → Bool
  scanArchiveOf : String → ScanArchive
  pfileOf : String → Pfile
  fileContents : String → String

/-- The if/else-if chain on the configured class name (constructor lines
78-95); an unmatched name reaches `exit(EXIT_FAILURE)`, i.e. no session is
produced. -/
def selectConverter (classname : String) : Option SequenceConverter :=
  if classname = "GenericConverter" then some SequenceConverter.GenericConverter
  else if classname = "NIH2dfastConverter" then some SequenceConverter.NIH2dfastConverter
  else if classname = "NIHepiConverter" then some SequenceConverter.NIHepiConverter
  else none

/-- The constructor `GERawConverter::GERawConverter(rawFilePath, classname)`:
file inspection picks the container kind and loads exactly one container; the
classname chain picks the strategy; an unknown classname terminates
construction (modelled as `none`).  The stylesheet member starts empty. -/
def GERawConverter.construct (env : ConversionEnv) (rawFilePath classname : String) :
    Option GERawConverter :=
  match selectConverter classname with
  | none => none
  | some conv =>
    if env.isArchiveFilePath rawFilePath then
      let archive := env.scanArchiveOf rawFilePath
      some { rawObjectType := RawObjectType.SCAN_ARCHIVE_RAW_TYPE
             scanArchive := some archive
             pfile := none
             lxData := archive.lxData
             processingControl := archive.processingControl
             converter := conv
             stylesheet := "" }
    else
      let pf := env.pfileOf rawFilePath
      some { rawObjectType := RawObjectType.PFILE_RAW_TYPE
             scanArchive := none
             pfile := some pf
             lxData := pf.lxData
             processingControl := pf.processingControl
             converter := conv
             stylesheet := "" }

/-- An open input stream over a file: its full contents plus a read
position. -/
structure FileStream where
  contents : String
  pos : Nat
deriving DecidableEq, Repr

/-- `stream.seekg(0, std::ios::beg)`. -/
def FileStream.seekToBeginning (s : FileStream) : FileStream :=
  { s with pos := 0 }

/-- Reading the stream to its end via `istreambuf_iterator` from the current
position. -/
def FileStream.readToEnd (s : FileStream) : String :=
  String.mk (s.contents.data.drop s.pos)

/-- Opening `std::ifstream(filename, binary)`: a fresh stream at position
zero over the file contents. -/
def ConversionEnv.openStream (env : ConversionEnv) (filename : String) : FileStream :=
  { contents := env.fileContents filename, pos := 0 }

/-- `GERawConverter::useStylesheetString`: stores the text in the
`stylesheet_` member. -/
def useStylesheetString (c : GERawConverter) (sheet : String) : GERawConverter :=
  { c with stylesheet := sheet }

/-- `GERawConverter::useStylesheetStream`: seeks to the beginning, reads the
whole stream and delegates to `useStylesheetString`. -/
def useStylesheetStream (c : GERawConverter) (stream : FileStream) : GERawConverter :=
  useStylesheetString c (stream.seekToBeginning.readToEnd)

/-- `GERawConverter::useStylesheetFilename`: opens the file and delegates to
`useStylesheetStream`. -/
def useStylesheetFilename (env : ConversionEnv) (c : GERawConverter) (filename : String) :
    GERawConverter :=
  useStylesheetStream c (env.openStream filename)

/-! ## The Document Builder (XMLWriter)

The XMLWriter class is part of this repository but its source is not under
src/ (only `XMLWriter.h` is included by the converter), so it is modelled
from the spec. -/

/-- One node of the intermediate document, in emission order: an element
opening, an element closing, or a scalar element holding formatted text. -/
inductive XmlEvent where
  | openEl (name : String)
  | closeEl (name : String)
  | scalar (name : String) (value : String)
deriving DecidableEq, Repr

/-- Modelled from the spec: the Document Builder (the repository's XMLWriter,
whose source is not under src/).  It is the stack-based builder of section
4.2: a cursor stack of open elements plus the ordered emission so far.
`endDocument` closes every still-open frame (the projection leaves the
Header/Series/Study/Patient/Equipment frames open and the spec's end-to-end
scenario nevertheless expects a complete document, so finalization closes
the remaining frames innermost-first). -/
structure XMLWriter where
  events : List XmlEvent
  stack : List String
deriving DecidableEq, Repr

/-- `writer.startDocument()`: fresh builder. -/
def XMLWriter.startDocument : XMLWriter :=
  { events := [], stack := [] }

/-- `writer.startElement(name)`: open a nested element. -/
def XMLWriter.startElement (w : XMLWriter) (name : String) : XMLWriter :=
  { events := w.events ++ [XmlEvent.openEl name], stack := name :: w.stack }

/-- `writer.endElement()`: close the innermost open element.  Calling it with
no open element is a programming error per the spec; the projection never
does, and the model leaves the builder unchanged in that unreachable case. -/
def XMLWriter.endElement (w : XMLWriter) : XMLWriter :=
  match w.stack with
  | [] => w
  | n :: rest => { events := w.events ++ [XmlEvent.closeEl n], stack := rest }

/-- `writer.addBooleanElement(name, b)`: booleans serialize to the fixed
lowercase token pair. -/
def XMLWriter.addBooleanElement (w : XMLWriter) (name : String) (b : Bool) : XMLWriter :=
  { w with events := w.events ++ [XmlEvent.scalar name (if b then "true" else "false")] }

/-- `writer.formatElement(name, fmt, v)` at an int value with the pattern
the projection always uses for ints, decimal with a possible leading minus. -/
def XMLWriter.formatIntElement (w : XMLWriter) (name : String) (v : Int) : XMLWriter :=
  { w with events := w.events ++ [XmlEvent.scalar name (toString v)] }

/-- `writer.formatElement(name, fmt, v)` at a string value. -/
def XMLWriter.formatStringElement (w : XMLWriter) (name : String) (v : String) : XMLWriter :=
  { w with events := w.events ++ [XmlEvent.scalar name v] }

/-- `writer.formatElement(name, fmt, v)` at an unsigned value. -/
def XMLWriter.formatNatElement (w : XMLWriter) (name : String) (v : Nat) : XMLWriter :=
  { w with events := w.events ++ [XmlEvent.scalar name (toString v)] }

/-- The projection formats ExamNumber, an int-typed field, with an unsigned
conversion: varargs reinterpretation of a 32-bit int as unsigned. -/
def formatUnsigned32 (v : Int) : String :=
  toString (v % 4294967296).toNat

/-- `writer.formatElement(name, fmt, v)` at an int value printed with an
unsigned conversion. -/
def XMLWriter.formatUnsignedElement (w : XMLWriter) (name : String) (v : Int) : XMLWriter :=
  { w with events := w.events ++ [XmlEvent.scalar name (formatUnsigned32 v)] }

/-- `writer.endDocument()`: close every remaining open frame. -/
def XMLWriter.endDocument (w : XMLWriter) : XMLWriter :=
  { events := w.events ++ w.stack.map XmlEvent.closeEl, stack := [] }

/-- Rendering of one event as document text. -/
def XmlEvent.render : XmlEvent → String
  | XmlEvent.openEl n => "<" ++ n ++ ">"
  | XmlEvent.closeEl n => "</" ++ n ++ ">"
  | XmlEvent.scalar n v => "<" ++ n ++ ">" ++ v ++ "</" ++ n ++ ">"

/-- `writer.getXML()`: the serialized document text. -/
def XMLWriter.getXML (w : XMLWriter) : String :=
  String.join (w.events.map XmlEvent.render)

/-! ## Field reads at the SDK boundary -/

/-- Modelled from the spec: one `Value` / `ValueStrict` lookup at the
raw-header abstraction boundary.  A read the abstraction reports absent or
throws for surfaces as a MissingField error naming the field. -/
def readField {α : Type} (o : Option α) (name : String) : Except String α :=
  match o with
  | some v => Except.ok v
  | none => Except.error ("MissingField: " ++ name)

/-- The scalar values the main body of `ge_header_to_xml` reads, in source
order, before any emission is observable. -/
structure MainFields where
  is3D : Bool
  assetCalibration : Bool
  numSlices : Int
  numChannels : Int
  seriesNumber : Int
  seriesUID : String
  seriesDescription : String
  examNumber : Int
  studyUID : String
  patientName : String
  patientID : String
  manufacturer : String
  coilConfigUID : Nat
  echoTime : String
  repetitionTime : String
deriving DecidableEq, Repr

/-- The reads of the main projection body (GERawConverter.cpp lines
261-324) in source order; the first failing read aborts the projection. -/
def readMainFields (lx : LxDownloadData) (pc : ProcessingControl) :
    Except String MainFields :=
  match readField pc.is3DAcquisition "Is3DAcquisition" with
  | Except.error e => Except.error e
  | Except.ok is3D =>
  match readField pc.assetCalibration "AssetCalibration" with
  | Except.error e => Except.error e
  | Except.ok asset =>
  match readField pc.numSlices "NumSlices" with
  | Except.error e => Except.error e
  | Except.ok numSlices =>
  match readField pc.numChannels "NumChannels" with
  | Except.error e => Except.error e
  | Except.ok numChannels =>
  match readField pc.seriesNumber "SeriesNumber" with
  | Except.error e => Except.error e
  | Except.ok seriesNumber =>
  match readField lx.dicom.seriesUID "SeriesUID" with
  | Except.error e => Except.error e
  | Except.ok seriesUID =>
  match readField lx.dicom.seriesDescription "SeriesDescription" with
  | Except.error e => Except.error e
  | Except.ok seriesDescription =>
  match readField pc.examNumber "ExamNumber" with
  | Except.error e => Except.error e
  | Except.ok examNumber =>
  match readField lx.dicom.studyUID "StudyUID" with
  | Except.error e => Except.error e
  | Except.ok studyUID =>
  match readField lx.dicom.patientName "PatientName" with
  | Except.error e => Except.error e
  | Except.ok patientName =>
  match readField lx.dicom.patientID "PatientID" with
  | Except.error e => Except.error e
  | Except.ok patientID =>
  match readField lx.dicom.manufacturer "Manufacturer" with
  | Except.error e => Except.error e
  | Except.ok manufacturer =>
  match readField pc.coilConfigUID "CoilConfigUID" with
  | Except.error e => Except.error e
  | Except.ok coilConfigUID =>
  match readField pc.sliceTable "SliceTable" with
  | Except.error e => Except.error e
  | Except.ok _ =>
  match readField lx.dicom.echoTime "EchoTime" with
  | Except.error e => Except.error e
  | Except.ok echoTime =>
  match readField lx.dicom.repetitionTime "RepetitionTime" with
  | Except.error e => Except.error e
  | Except.ok repetitionTime =>
  Except.ok { is3D := is3D, assetCalibration := asset, numSlices := numSlices,
              numChannels := numChannels, seriesNumber := seriesNumber,
              seriesUID := seriesUID, seriesDescription := seriesDescription,
              examNumber := examNumber, studyUID := studyUID,
              patientName := patientName, patientID := patientID,
              manufacturer := manufacturer, coilConfigUID := coilConfigUID,
              echoTime := echoTime, repetitionTime := repetitionTime }

/-- The scalar values the EPI branch reads (GERawConverter.cpp lines
331-347), plus the archive control count it divides. -/
structure EpiFields where
  extraFramesTop : Int
  extraFramesBottom : Int
  numSlices : Int
  integratedReferenceScan : Bool
  multibandEnabled : Bool
  acquiredYRes : Int
  availableControlCount : Int
deriving DecidableEq, Repr

/-- The reads of the EPI branch in source order: the two extra-frame counts
(line 335), the NumSlices re-read of the main control (line 338), then the
values read at emission time (lines 341-344). -/
def readEpiFields (epiPc : ProcessingControl) (pc : ProcessingControl)
    (archive : ScanArchive) : Except String EpiFields :=
  match readField epiPc.extraFramesTop "ExtraFramesTop" with
  | Except.error e => Except.error e
  | Except.ok top =>
  match readField epiPc.extraFramesBottom "ExtraFramesBottom" with
  | Except.error e => Except.error e
  | Except.ok bottom =>
  match readField pc.numSlices "NumSlices" with
  | Except.error e => Except.error e
  | Except.ok numSlices =>
  match readField epiPc.integratedReferenceScan "IntegratedReferenceScan" with
  | Except.error e => Except.error e
  | Except.ok integrated =>
  match readField epiPc.multibandEnabled "MultibandEnabled" with
  | Except.error e => Except.error e
  | Except.ok multiband =>
  match readField epiPc.acquiredYRes "AcquiredYRes" with
  | Except.error e => Except.error e
  | Except.ok yres =>
  Except.ok { extraFramesTop := top, extraFramesBottom := bottom,
              numSlices := numSlices, integratedReferenceScan := integrated,
              multibandEnabled := multiband, acquiredYRes := yres,
              availableControlCount := archive.availableControlCount }

/-- The volume-count derivation at line 338:
`archive_storage_ptr->AvailableControlCount() / (NumSlices + 1)` in C++ int
arithmetic, i.e. division truncating toward zero. -/
def numVolumes (availableControlCount numSlices : Int) : Int :=
  Int.tdiv availableControlCount (numSlices + 1)

/-- The emission phase of `ge_header_to_xml`: the exact sequence of builder
calls of lines 256-352, evaluated at the already-read field values.  The
EPI block is passed as `some` exactly when `lxData->IsEpi()` held. -/
def buildHeaderDoc (lx : LxDownloadData) (mf : MainFields) (epi : Option EpiFields) :
    XMLWriter :=
  let w := XMLWriter.startDocument
  let w := w.startElement "Header"
  let w := w.addBooleanElement "is3DAcquisition" mf.is3D
  let w := w.addBooleanElement "isCalibration" lx.isCalibration
  let w := w.addBooleanElement "isAssetCalibration" mf.assetCalibration
  let w := w.formatIntElement "SliceCount" mf.numSlices
  let w := w.formatIntElement "ChannelCount" mf.numChannels
  let w := w.startElement "Series"
  let w := w.formatIntElement "Number" mf.seriesNumber
  let w := w.formatStringElement "UID" mf.seriesUID
  let w := w.formatStringElement "Description" mf.seriesDescription
  let w := w.startElement "Study"
  let w := w.formatUnsignedElement "Number" mf.examNumber
  let w := w.formatStringElement "UID" mf.studyUID
  let w := w.startElement "Patient"
  let w := w.formatStringElement "Name" mf.patientName
  let w := w.formatStringElement "ID" mf.patientID
  let w := w.startElement "Equipment"
  let w := w.formatStringElement "Manufacturer" mf.manufacturer
  let w := w.formatNatElement "CoilConfigUID" mf.coilConfigUID
  let w := w.startElement "Image"
  let w := w.formatStringElement "EchoTime" mf.echoTime
  let w := w.formatStringElement "RepetitionTime" mf.repetitionTime
  let w :=
    match epi with
    | none => w
    | some ef =>
      let w := w.startElement "epiParameters"
      let w := w.addBooleanElement "isEpiRefScanIntegrated" ef.integratedReferenceScan
      let w := w.addBooleanElement "MultibandEnabled" ef.multibandEnabled
      let w := w.formatIntElement "ExtraFramesTop" ef.extraFramesTop
      let w := w.formatIntElement "AcquiredYRes" ef.acquiredYRes
      let w := w.formatIntElement "ExtraFramesBottom" ef.extraFramesBottom
      let w := w.formatIntElement "NumRefViews" (ef.extraFramesTop + ef.extraFramesBottom)
      let w := w.formatIntElement "num_volumes"
        (numVolumes ef.availableControlCount ef.numSlices)
      w.endElement
  let w := w.endElement
  w.endDocument

/-- `GERawConverter::ge_header_to_xml`, at the document level.  The outer
`Option` marks definedness: `none` is the undefined behavior of the EPI
branch dereferencing the null `scanArchive_` member in
`ArchiveStorage::Create(scanArchive_)` (line 333) when the session was not
built from a ScanArchive.  Inside, the projection either aborts with the
first failing field read (no partial document) or yields the finished
builder.  Splitting reads from emission preserves the observable behavior:
a thrown read escapes the C++ function before any output is returned. -/
def ge_header_to_doc (scanArchive : Option ScanArchive) (lxData : LxDownloadData)
    (processingControl : ProcessingControl) : Option (Except String XMLWriter) :=
  match readMainFields lxData processingControl with
  | Except.error e => some (Except.error e)
  | Except.ok mf =>
    if lxData.isEpi then
      match scanArchive with
      | none => none
      | some archive =>
        match readEpiFields lxData.epiControl processingControl archive with
        | Except.error e => some (Except.error e)
        | Except.ok ef => some (Except.ok (buildHeaderDoc lxData mf (some ef)))
    else
      some (Except.ok (buildHeaderDoc lxData mf none))

/-- `GERawConverter::ge_header_to_xml` as the C++ signature has it: the
serialized document text. -/
def ge_header_to_xml (scanArchive : Option ScanArchive) (lxData : LxDownloadData)
    (processingControl : ProcessingControl) : Option (Except String String) :=
  match ge_header_to_doc scanArchive lxData processingControl with
  | none => none
  | some (Except.error e) => some (Except.error e)
  | some (Except.ok w) => some (Except.ok w.getXML)

/-! ## The transform engine boundary (libxml2 / libxslt) -/

/-- Outcome of one call into an external XML/XSLT engine primitive: the call
can throw with diagnostic text, return a null (or negative) result with no
diagnostic, or succeed. -/
inductive EngineOutcome (α : Type) where
  | threw (diag : String)
  | nullResult
  | ok (value : α)

/-- Opaque handle to a parsed XML document. -/
structure XmlDocHandle where
  id : Nat
deriving DecidableEq, Repr

/-- Opaque handle to a compiled XSLT stylesheet. -/
structure StylesheetHandle where
  id : Nat
deriving DecidableEq, Repr

/-- The engine primitives `getIsmrmrdXMLHeader` drives, one field per call
site in the C++ body. -/
structure XsltEngine where
  xmlParseMemory : String → EngineOutcome XmlDocHandle
  parseStylesheetDoc : XmlDocHandle → EngineOutcome StylesheetHandle
  applyStylesheet : StylesheetHandle → XmlDocHandle → EngineOutcome XmlDocHandle
  saveResultToString : XmlDocHandle → StylesheetHandle → EngineOutcome String

/-- How many times each fallible pipeline stage ran during one
`getIsmrmrdXMLHeader` call. -/
structure StageCalls where
  projectionCalls : Nat
  stylesheetParseCalls : Nat
  stylesheetCompileCalls : Nat
  documentParseCalls : Nat
  applyCalls : Nat
  serializeCalls : Nat
deriving DecidableEq, Repr

/-- The all-zero stage counter. -/
def StageCalls.zero : StageCalls :=
  { projectionCalls := 0, stylesheetParseCalls := 0, stylesheetCompileCalls := 0,
    documentParseCalls := 0, applyCalls := 0, serializeCalls := 0 }

/-- Error prefix of the projection stage (line 142). -/
def stageProjectionPrefix : String :=
  "Failed to generate GE header from lxData and processingControl: "

/-- Error prefix of the stylesheet memory-parse stage (line 162). -/
def stageStylesheetParsePrefix : String :=
  "Failed to parse stylesheet from memory: "

/-- Error prefix of the stylesheet compile stage (line 173). -/
def stageStylesheetCompilePrefix : String :=
  "Failed to create shared_ptr for stylesheet: "

/-- Error prefix of the projected-document parse stage (line 183). -/
def stageDocumentParsePrefix : String :=
  "Failed to parse P-File XML: "

/-- Error prefix of the apply stage (line 195). -/
def stageApplyPrefix : String :=
  "Error applying stylesheet: "

/-- Error prefix of the serialize stage (line 205). -/
def stageSerializePrefix : String :=
  "Error saving result to string: "

/-- `GERawConverter::getIsmrmrdXMLHeader` (lines 129-216), instrumented with
a per-stage call counter to make retry behavior provable.  Each fallible
engine call site increments its counter exactly when the C++ body reaches
it.  A null engine result triggers the fixed message thrown inside the
stage's try block, then the stage's catch wraps whatever was thrown with the
stage prefix; a throwing engine call is wrapped the same way.  The outer
`Option` threads the undefined-behavior marker of the projection. -/
def getIsmrmrdXMLHeaderTraced (eng : XsltEngine) (c : GERawConverter) :
    Option (Except String String) × StageCalls :=
  if c.stylesheet.isEmpty then
    (some (Except.error "No stylesheet configured."), StageCalls.zero)
  else
    let calls0 := { StageCalls.zero with projectionCalls := 1 }
    match ge_header_to_xml c.scanArchive c.lxData c.processingControl with
    | none => (none, calls0)
    | some (Except.error e) =>
        (some (Except.error (stageProjectionPrefix ++ e)), calls0)
    | some (Except.ok hdr) =>
      if hdr.isEmpty then
        (some (Except.error (stageProjectionPrefix ++ "Generated GE header is empty.")), calls0)
      else
        let calls1 := { calls0 with stylesheetParseCalls := 1 }
        match eng.xmlParseMemory c.stylesheet with
        | EngineOutcome.threw d =>
            (some (Except.error (stageStylesheetParsePrefix ++ d)), calls1)
        | EngineOutcome.nullResult =>
            (some (Except.error
              (stageStylesheetParsePrefix ++ "Parsed stylesheet_doc is NULL.")), calls1)
        | EngineOutcome.ok sdoc =>
          let calls2 := { calls1 with stylesheetCompileCalls := 1 }
          match eng.parseStylesheetDoc sdoc with
          | EngineOutcome.threw d =>
              (some (Except.error (stageStylesheetCompilePrefix ++ d)), calls2)
          | EngineOutcome.nullResult =>
              (some (Except.error
                (stageStylesheetCompilePrefix ++ "Failed to parse XSLT stylesheet.")), calls2)
          | EngineOutcome.ok sheet =>
            let calls3 := { calls2 with documentParseCalls := 1 }
            match eng.xmlParseMemory hdr with
            | EngineOutcome.threw d =>
                (some (Except.error (stageDocumentParsePrefix ++ d)), calls3)
            | EngineOutcome.nullResult =>
                (some (Except.error
                  (stageDocumentParsePrefix ++ "Failed to parse GE header XML.")), calls3)
            | EngineOutcome.ok pdoc =>
              let calls4 := { calls3 with applyCalls := 1 }
              match eng.applyStylesheet sheet pdoc with
              | EngineOutcome.threw d =>
                  (some (Except.error (stageApplyPrefix ++ d)), calls4)
              | EngineOutcome.nullResult =>
                  (some (Except.error
                    (stageApplyPrefix ++ "Failed to apply XSLT stylesheet to the document.")), calls4)
              | EngineOutcome.ok rdoc =>
                let calls5 := { calls4 with serializeCalls := 1 }
                match eng.saveResultToString rdoc sheet with
                | EngineOutcome.threw d =>
                    (some (Except.error (stageSerializePrefix ++ d)), calls5)
                | EngineOutcome.nullResult =>
                    (some (Except.error
                      (stageSerializePrefix ++ "Failed to save transformed XML to string.")), calls5)
                | EngineOutcome.ok out => (some (Except.ok out), calls5)

/-- `GERawConverter::getIsmrmrdXMLHeader`: the result the caller sees. -/
def getIsmrmrdXMLHeader (eng : XsltEngine) (c : GERawConverter) :
    Option (Except String String) :=
  (getIsmrmrdXMLHeaderTraced eng c).1

/-! ## Acquisition dispatch -/

/-- The raw container handed to the strategy: either the scan-archive member
or the pfile member, exactly as stored in the session. -/
inductive RawContainer where
  | archiveContainer (archive : Option ScanArchive)
  | pfileContainer (pfile : Option Pfile)
deriving DecidableEq, Repr

/-- `GERawConverter::getAcquisitions(view_num)` (lines 227-237): a virtual
call on the selected strategy, passing the container matching the session's
stored kind.  The strategy implementations live in plugin sources outside
src/, so the virtual table is a parameter. -/
def GERawConverter.getAcquisitions
    (dispatch : SequenceConverter → RawContainer → Nat → List AcquisitionRecord)
    (c : GERawConverter) (view_num : Nat) : List AcquisitionRecord :=
  if c.rawObjectType = RawObjectType.SCAN_ARCHIVE_RAW_TYPE then
    dispatch c.converter (RawContainer.archiveContainer c.scanArchive) view_num
  else
    dispatch c.converter (RawContainer.pfileContainer c.pfile) view_num

/-! ## Field-presence bookkeeping for the fail-fast property -/

/-- Whether the raw abstraction reports the named projected field absent for
this session, matching the read sites of the projection: main-control
scalars, DICOM identity fields, and the EPI control's scalars. -/
def projectedFieldAbsent (lx : LxDownloadData) (pc : ProcessingControl) : String → Prop
  | "Is3DAcquisition" => pc.is3DAcquisition = none
  | "AssetCalibration" => pc.assetCalibration = none
  | "NumSlices" => pc.numSlices = none
  | "NumChannels" => pc.numChannels = none
  | "SeriesNumber" => pc.seriesNumber = none
  | "SeriesUID" => lx.dicom.seriesUID = none
  | "SeriesDescription" => lx.dicom.seriesDescription = none
  | "ExamNumber" => pc.examNumber = none
  | "StudyUID" => lx.dicom.studyUID = none
  | "PatientName" => lx.dicom.patientName = none
  | "PatientID" => lx.dicom.patientID = none
  | "Manufacturer" => lx.dicom.manufacturer = none
  | "CoilConfigUID" => pc.coilConfigUID = none
  | "SliceTable" => pc.sliceTable = none
  | "EchoTime" => lx.dicom.echoTime = none
  | "RepetitionTime" => lx.dicom.repetitionTime = none
  | "ExtraFramesTop" => lx.epiControl.extraFramesTop = none
  | "ExtraFramesBottom" => lx.epiControl.extraFramesBottom = none
  | "IntegratedReferenceScan" => lx.epiControl.integratedReferenceScan = none
  | "MultibandEnabled" => lx.epiControl.multibandEnabled = none
  | "AcquiredYRes" => lx.epiControl.acquiredYRes = none
  | _ => False

/-- Every field the main projection body reads is present. -/
def mainFieldsPresent (lx : LxDownloadData) (pc : ProcessingControl) : Prop :=
  pc.is3DAcquisition.isSome = true ∧ pc.assetCalibration.isSome = true ∧
  pc.numSlices.isSome = true ∧ pc.numChannels.isSome = true ∧
  pc.seriesNumber.isSome = true ∧ lx.dicom.seriesUID.isSome = true ∧
  lx.dicom.seriesDescription.isSome = true ∧ pc.examNumber.isSome = true ∧
  lx.dicom.studyUID.isSome = true ∧ lx.dicom.patientName.isSome = true ∧
  lx.dicom.patientID.isSome = true ∧ lx.dicom.manufacturer.isSome = true ∧
  pc.coilConfigUID.isSome = true ∧ pc.sliceTable.isSome = true ∧
  lx.dicom.echoTime.isSome = true ∧ lx.dicom.repetitionTime.isSome = true

/-- Every field the EPI branch reads is present. -/
def epiFieldsPresent (lx : LxDownloadData) (pc : ProcessingControl) : Prop :=
  lx.epiControl.extraFramesTop.isSome = true ∧
  lx.epiControl.extraFramesBottom.isSome = true ∧
  pc.numSlices.isSome = true ∧
  lx.epiControl.integratedReferenceScan.isSome = true ∧
  lx.epiControl.multibandEnabled.isSome = true ∧
  lx.epiControl.acquiredYRes.isSome = true

/-! ## Boundary lemmas about single field reads -/

theorem readField_some {α : Type} (v : α) (n : String) :
    readField (some v) n = Except.ok v := rfl

theorem readField_none {α : Type} (n : String) :
    readField (none : Option α) n = Except.error ("MissingField: " ++ n) := rfl

theorem readField_ok_iff {α : Type} (o : Option α) (n : String) (v : α) :
    readField o n = Except.ok v ↔ o = some v := by
  cases o <;> simp [readField]

theorem readField_error_iff {α : Type} (o : Option α) (n e : String) :
    readField o n = Except.error e ↔ o = none ∧ e = "MissingField: " ++ n := by
  cases o <;> simp [readField, eq_comm]

/-! ## Shape lemmas for the two read phases -/

theorem readEpiFields_error_shape (lx : LxDownloadData) (pc : ProcessingControl)
    (archive : ScanArchive) (e : String)
    (h : readEpiFields lx.epiControl pc archive = Except.error e) :
    ∃ n, e = "MissingField: " ++ n ∧ projectedFieldAbsent lx pc n := by
  unfold readEpiFields at h
  iterate 6 (all_goals try split at h)
  all_goals try exact Except.noConfusion h
  all_goals
    cases h
    obtain ⟨hnone, rfl⟩ := (readField_error_iff _ _ _).mp (by assumption)
    exact ⟨_, rfl, hnone⟩

theorem readEpiFields_ok_present (lx : LxDownloadData) (pc : ProcessingControl)
    (archive : ScanArchive) (ef : EpiFields)
    (h : readEpiFields lx.epiControl pc archive = Except.ok ef) :
    epiFieldsPresent lx pc := by
  unfold readEpiFields at h
  iterate 6 (all_goals try split at h)
  all_goals try exact Except.noConfusion h
  cases h
  simp only [readField_ok_iff] at *
  simp_all [epiFieldsPresent]

theorem readEpiFields_ok_facts (epiPc pc : ProcessingControl)
    (archive : ScanArchive) (ef : EpiFields)
    (h : readEpiFields epiPc pc archive = Except.ok ef) :
    pc.numSlices = some ef.numSlices ∧
    ef.availableControlCount = archive.availableControlCount ∧
    epiPc.extraFramesTop = some ef.extraFramesTop ∧
    epiPc.extraFramesBottom = some ef.extraFramesBottom ∧
    epiPc.integratedReferenceScan = some ef.integratedReferenceScan ∧
    epiPc.multibandEnabled = some ef.multibandEnabled ∧
    epiPc.acquiredYRes = some ef.acquiredYRes := by
  unfold readEpiFields at h
  iterate 6 (all_goals try split at h)
  all_goals try exact Except.noConfusion h
  cases h
  simp only [readField_ok_iff] at *
  simp_all

theorem readMainFields_error_shape (lx : LxDownloadData) (pc : ProcessingControl)
    (e : String) (h : readMainFields lx pc = Except.error e) :
    ∃ n, e = "MissingField: " ++ n ∧ projectedFieldAbsent lx pc n := by
  unfold readMainFields at h
  iterate 16 (all_goals try split at h)
  all_goals try exact Except.noConfusion h
  all_goals
    cases h
    obtain ⟨hnone, rfl⟩ := (readField_error_iff _ _ _).mp (by assumption)
    exact ⟨_, rfl, hnone⟩

theorem readMainFields_ok_present (lx : LxDownloadData) (pc : ProcessingControl)
    (mf : MainFields) (h : readMainFields lx pc = Except.ok mf) :
    mainFieldsPresent lx pc := by
  unfold readMainFields at h
  iterate 16 (all_goals try split at h)
  all_goals try exact Except.noConfusion h
  cases h
  simp only [readField_ok_iff] at *
  simp_all [mainFieldsPresent]

theorem readMainFields_ok_facts (lx : LxDownloadData) (pc : ProcessingControl)
    (mf : MainFields) (h : readMainFields lx pc = Except.ok mf) :
    pc.numSlices = some mf.numSlices := by
  unfold readMainFields at h
  iterate 16 (all_goals try split at h)
  all_goals try exact Except.noConfusion h
  cases h
  simp only [readField_ok_iff] at *
  simp_all

/-! ## Concrete instances, matching the end-to-end scenario of the spec -/

/-- DICOM identity fields of the sample session. -/
def sampleDicom : DicomData :=
  { seriesUID := some "1.2.840.11", seriesDescription := some "fMRI run",
    studyUID := some "1.2.840.12", patientName := some "DOE JOHN",
    patientID := some "PAT001", manufacturer := some "GE MEDICAL SYSTEMS",
    echoTime := some "30", repetitionTime := some "2000" }

/-- The EPI processing control of the scenario: ExtraFramesTop=2,
ExtraFramesBottom=1, AcquiredYRes=64. -/
def sampleEpiControl : ProcessingControl :=
  { extraFramesTop := some 2, extraFramesBottom := some 1,
    integratedReferenceScan := some true, multibandEnabled := some false,
    acquiredYRes := some 64 }

/-- The main processing control of the scenario: NumSlices=29. -/
def samplePc : ProcessingControl :=
  { is3DAcquisition := some false, assetCalibration := some false,
    numSlices := some 29, numChannels := some 8, seriesNumber := some 5,
    examNumber := some 123, coilConfigUID := some 42, sliceTable := some () }

/-- Download data of an EPI acquisition. -/
def sampleLxEpi : LxDownloadData :=
  { isCalibration := false, isEpi := true, dicom := sampleDicom,
    epiControl := sampleEpiControl }

/-- Download data of a non-EPI acquisition. -/
def sampleLxNonEpi : LxDownloadData :=
  { isCalibration := false, isEpi := false, dicom := sampleDicom,
    epiControl := sampleEpiControl }

/-- The scenario archive: availableControlCount=300. -/
def sampleArchive : ScanArchive :=
  { availableControlCount := 300, lxData := sampleLxEpi,
    processingControl := samplePc }

/-- A P-File holding the same EPI download data. -/
def samplePfile : Pfile :=
  { lxData := sampleLxEpi, processingControl := samplePc }

/-- A world where exactly the path "scan.h5" is a ScanArchive. -/
def sampleEnv : ConversionEnv :=
  { isArchiveFilePath := fun p => p == "scan.h5",
    scanArchiveOf := fun _ => sampleArchive,
    pfileOf := fun _ => samplePfile,
    fileContents := fun _ => "sample stylesheet text" }

/-- The session the constructor produces for the archive path. -/
def sampleSessionArchive : GERawConverter :=
  { rawObjectType := RawObjectType.SCAN_ARCHIVE_RAW_TYPE,
    scanArchive := some sampleArchive, pfile := none, lxData := sampleLxEpi,
    processingControl := samplePc,
    converter := SequenceConverter.NIHepiConverter, stylesheet := "" }

/-- The session the constructor produces for a non-archive path. -/
def sampleSessionPfile : GERawConverter :=
  { rawObjectType := RawObjectType.PFILE_RAW_TYPE, scanArchive := none,
    pfile := some samplePfile, lxData := sampleLxEpi,
    processingControl := samplePc,
    converter := SequenceConverter.NIHepiConverter, stylesheet := "" }

/-- The intermediate document the sample archive session projects. -/
def sampleHeaderWriter : XMLWriter :=
  match ge_header_to_doc (some sampleArchive) sampleLxEpi samplePc with
  | some (Except.ok w) => w
  | _ => XMLWriter.startDocument

/-! ## Claim theorems -/

/-- Claim C3: session construction selects the strategy by exact string
match of the configured class name against the closed set GenericConverter,
NIH2dfastConverter, NIHepiConverter; any other class name (such as
"NoSuchConverter") makes construction fail, so no projection or transform
can ever run for such a session (none exists). -/
theorem C3_strategy_exact_match (env : ConversionEnv) (rawFilePath classname : String) :
    ((GERawConverter.construct env rawFilePath classname).isSome ↔
      (classname = "GenericConverter" ∨ classname = "NIH2dfastConverter" ∨
        classname = "NIHepiConverter")) ∧
    GERawConverter.construct env rawFilePath "NoSuchConverter" = none := by
  have hsel : ∀ cn : String, (selectConverter cn).isSome = true ↔
      (cn = "GenericConverter" ∨ cn = "NIH2dfastConverter" ∨ cn = "NIHepiConverter") := by
    intro cn
    unfold selectConverter
    by_cases h1 : cn = "GenericConverter" <;>
      by_cases h2 : cn = "NIH2dfastConverter" <;>
        by_cases h3 : cn = "NIHepiConverter" <;>
          simp [h1, h2, h3]
  have hiso : ∀ cn : String, (GERawConverter.construct env rawFilePath cn).isSome =
      (selectConverter cn).isSome := by
    intro cn
    unfold GERawConverter.construct
    cases h : selectConverter cn
    · simp
    · simp only [Option.isSome_some]
      split <;> rfl
  constructor
  · rw [hiso classname]
    exact hsel classname
  · rfl

/-- Claim C8: the three template-supply entry points are equivalent: a file
path, an open stream over the same contents, and the literal contents all
store the same in-memory template text, and the stream path reads from the
beginning of the stream regardless of its current position. -/
theorem C8_stylesheet_entry_points_equivalent (env : ConversionEnv)
    (c : GERawConverter) (filename : String) (s : FileStream)
    (hs : s.contents = env.fileContents filename) :
    (useStylesheetFilename env c filename).stylesheet = env.fileContents filename ∧
    (useStylesheetStream c s).stylesheet = s.contents ∧
    (useStylesheetString c (env.fileContents filename)).stylesheet =
      env.fileContents filename ∧
    (useStylesheetFilename env c filename).stylesheet =
      (useStylesheetStream c s).stylesheet ∧
    (useStylesheetStream c s).stylesheet =
      (useStylesheetString c (env.fileContents filename)).stylesheet := by
  have hstream : ∀ t : FileStream, t.seekToBeginning.readToEnd = t.contents := by
    intro t
    show String.mk (t.contents.data.drop 0) = t.contents
    rw [List.drop_zero]
  refine ⟨?_, ?_, rfl, ?_, ?_⟩ <;>
    simp [useStylesheetFilename, useStylesheetStream, useStylesheetString,
      ConversionEnv.openStream, hstream, hs]

/-- Witness for C8 at a stream positioned mid-file. -/
theorem C8_stylesheet_entry_points_equivalent_witness :
    (useStylesheetFilename sampleEnv sampleSessionArchive "sheet.xsl").stylesheet =
      sampleEnv.fileContents "sheet.xsl" ∧
    (useStylesheetStream sampleSessionArchive
        { contents := "sample stylesheet text", pos := 7 }).stylesheet =
      "sample stylesheet text" ∧
    (useStylesheetString sampleSessionArchive
        (sampleEnv.fileContents "sheet.xsl")).stylesheet =
      sampleEnv.fileContents "sheet.xsl" ∧
    (useStylesheetFilename sampleEnv sampleSessionArchive "sheet.xsl").stylesheet =
      (useStylesheetStream sampleSessionArchive
        { contents := "sample stylesheet text", pos := 7 }).stylesheet ∧
    (useStylesheetStream sampleSessionArchive
        { contents := "sample stylesheet text", pos := 7 }).stylesheet =
      (useStylesheetString sampleSessionArchive
        (sampleEnv.fileContents "sheet.xsl")).stylesheet :=
  C8_stylesheet_entry_points_equivalent sampleEnv sampleSessionArchive "sheet.xsl"
    { contents := "sample stylesheet text", pos := 7 } rfl

/-- Claim C10: projection is deterministic: for fixed raw-header field
values, repeated calls to the projection emit byte-identical intermediate
document text.  The projection is a pure function of the session fields it
reads, so two calls at equal inputs return equal strings. -/
theorem C10_projection_deterministic (sa sa2 : Option ScanArchive)
    (lx lx2 : LxDownloadData) (pc pc2 : ProcessingControl)
    (h1 : sa = sa2) (h2 : lx = lx2) (h3 : pc = pc2) :
    ge_header_to_xml sa lx pc = ge_header_to_xml sa2 lx2 pc2 := by
  subst h1
  subst h2
  subst h3
  rfl

/-- Witness for C10 at the sample session. -/
theorem C10_projection_deterministic_witness :
    ge_header_to_xml (some sampleArchive) sampleLxEpi samplePc =
      ge_header_to_xml (some sampleArchive) sampleLxEpi samplePc :=
  C10_projection_deterministic (some sampleArchive) (some sampleArchive)
    sampleLxEpi sampleLxEpi samplePc samplePc rfl rfl rfl

/-- The field values the main projection reads from the sample session. -/
def sampleMainFields : MainFields :=
  { is3D := false, assetCalibration := false, numSlices := 29,
    numChannels := 8, seriesNumber := 5, seriesUID := "1.2.840.11",
    seriesDescription := "fMRI run", examNumber := 123,
    studyUID := "1.2.840.12", patientName := "DOE JOHN",
    patientID := "PAT001", manufacturer := "GE MEDICAL SYSTEMS",
    coilConfigUID := 42, echoTime := "30", repetitionTime := "2000" }

/-- Claim C9: the raw container kind is fixed once at construction by file
inspection (ScanArchive for an archive path, P-File otherwise), never by
sequence identity (the class name does not influence it), never changed by
the later session operations, and every getAcquisitions call delegates to
the selected strategy passing the container matching that kind. -/
theorem C9_container_kind_fixed (env : ConversionEnv) (p cn : String)
    (c : GERawConverter) (hc : GERawConverter.construct env p cn = some c) :
    (c.rawObjectType = if env.isArchiveFilePath p then
      RawObjectType.SCAN_ARCHIVE_RAW_TYPE else RawObjectType.PFILE_RAW_TYPE) ∧
    (∀ cn2 c2, GERawConverter.construct env p cn2 = some c2 →
      c2.rawObjectType = c.rawObjectType) ∧
    (∀ sheet, (useStylesheetString c sheet).rawObjectType = c.rawObjectType ∧
      (useStylesheetString c sheet).scanArchive = c.scanArchive ∧
      (useStylesheetString c sheet).pfile = c.pfile ∧
      (useStylesheetString c sheet).converter = c.converter) ∧
    (∀ s, (useStylesheetStream c s).rawObjectType = c.rawObjectType) ∧
    (∀ f, (useStylesheetFilename env c f).rawObjectType = c.rawObjectType) ∧
    (∀ dispatch view_num, GERawConverter.getAcquisitions dispatch c view_num =
      if env.isArchiveFilePath p then
        dispatch c.converter (RawContainer.archiveContainer c.scanArchive) view_num
      else
        dispatch c.converter (RawContainer.pfileContainer c.pfile) view_num) ∧
    (env.isArchiveFilePath p = true → c.scanArchive = some (env.scanArchiveOf p)) ∧
    (env.isArchiveFilePath p = false → c.pfile = some (env.pfileOf p)) := by
  unfold GERawConverter.construct at hc
  cases hsel : selectConverter cn
  · simp only [hsel] at hc
    exact Option.noConfusion hc
  · simp only [hsel] at hc
    by_cases hif : env.isArchiveFilePath p = true
    · rw [if_pos hif] at hc
      injection hc with h
      subst h
      refine ⟨by rw [if_pos hif], ?_, ?_, ?_, ?_, ?_, ?_, ?_⟩
      · intro cn2 c2 hc2
        unfold GERawConverter.construct at hc2
        cases hsel2 : selectConverter cn2
        · simp only [hsel2] at hc2
          exact Option.noConfusion hc2
        · simp only [hsel2] at hc2
          rw [if_pos hif] at hc2
          injection hc2 with h2
          subst h2
          rfl
      · intro sheet
        exact ⟨rfl, rfl, rfl, rfl⟩
      · intro s
        rfl
      · intro f
        rfl
      · intro dispatch view_num
        rw [if_pos hif]
        rfl
      · intro _
        rfl
      · intro hfalse
        rw [hfalse] at hif
        exact Bool.noConfusion hif
    · rw [if_neg hif] at hc
      injection hc with h
      subst h
      refine ⟨by rw [if_neg hif], ?_, ?_, ?_, ?_, ?_, ?_, ?_⟩
      · intro cn2 c2 hc2
        unfold GERawConverter.construct at hc2
        cases hsel2 : selectConverter cn2
        · simp only [hsel2] at hc2
          exact Option.noConfusion hc2
        · simp only [hsel2] at hc2
          rw [if_neg hif] at hc2
          injection hc2 with h2
          subst h2
          rfl
      · intro sheet
        exact ⟨rfl, rfl, rfl, rfl⟩
      · intro s
        rfl
      · intro f
        rfl
      · intro dispatch view_num
        rw [if_neg hif]
        rfl
      · intro htrue
        exact absurd htrue hif
      · intro _
        rfl

/-- Witness for C9 at the sample archive session. -/
theorem C9_container_kind_fixed_witness :
    (sampleSessionArchive.rawObjectType = if sampleEnv.isArchiveFilePath "scan.h5" then
      RawObjectType.SCAN_ARCHIVE_RAW_TYPE else RawObjectType.PFILE_RAW_TYPE) ∧
    sampleSessionArchive.scanArchive = some (sampleEnv.scanArchiveOf "scan.h5") := by
  have h := C9_container_kind_fixed sampleEnv "scan.h5" "NIHepiConverter"
    sampleSessionArchive rfl
  exact ⟨h.1, h.2.2.2.2.2.2.1 rfl⟩

/-- Claim C7: with no template supplied (the stored stylesheet is empty),
getIsmrmrdXMLHeader fails with the configuration error before any projection
or transform stage runs (all stage counters stay zero); an empty template is
what construction itself leaves in the session, so empty is permitted before
first use. -/
theorem C7_empty_stylesheet_config_error (env : ConversionEnv) (p cn : String)
    (c : GERawConverter) (eng : XsltEngine)
    (hc : GERawConverter.construct env p cn = some c) :
    c.stylesheet = "" ∧
    (∀ c2 : GERawConverter, c2.stylesheet = "" →
      getIsmrmrdXMLHeader eng c2 = some (Except.error "No stylesheet configured.") ∧
      (getIsmrmrdXMLHeaderTraced eng c2).2 = StageCalls.zero) := by
  constructor
  · unfold GERawConverter.construct at hc
    cases hsel : selectConverter cn
    · simp only [hsel] at hc
      exact Option.noConfusion hc
    · simp only [hsel] at hc
      split at hc <;> (injection hc with h; subst h; rfl)
  · intro c2 h2
    have hempty : c2.stylesheet.isEmpty = true := by
      rw [h2]
      rfl
    constructor
    · unfold getIsmrmrdXMLHeader getIsmrmrdXMLHeaderTraced
      rw [if_pos hempty]
    · unfold getIsmrmrdXMLHeaderTraced
      rw [if_pos hempty]

/-- Witness for C7: an engine that would succeed everywhere is never
reached when the stylesheet is empty. -/
theorem C7_empty_stylesheet_config_error_witness :
    sampleSessionArchive.stylesheet = "" ∧
    getIsmrmrdXMLHeader
      { xmlParseMemory := fun _ => EngineOutcome.ok { id := 1 },
        parseStylesheetDoc := fun _ => EngineOutcome.ok { id := 1 },
        applyStylesheet := fun _ _ => EngineOutcome.ok { id := 2 },
        saveResultToString := fun _ _ => EngineOutcome.ok "out" }
      sampleSessionArchive = some (Except.error "No stylesheet configured.") := by
  have h := C7_empty_stylesheet_config_error sampleEnv "scan.h5" "NIHepiConverter"
    sampleSessionArchive
    { xmlParseMemory := fun _ => EngineOutcome.ok { id := 1 },
      parseStylesheetDoc := fun _ => EngineOutcome.ok { id := 1 },
      applyStylesheet := fun _ _ => EngineOutcome.ok { id := 2 },
      saveResultToString := fun _ _ => EngineOutcome.ok "out" } rfl
  exact ⟨h.1, (h.2 sampleSessionArchive h.1).1⟩

/-- Claim C4: a session built from a non-archive path never assigns the
scanArchive member; if its header reports EPI, the projection's EPI branch
dereferences that null member in ArchiveStorage::Create, so the projection
(and with it the volume-count derivation) is undefined (never yields a
document) unless the container kind is ScanArchive.  `none` at the outer
level of `ge_header_to_doc` is exactly that undefined dereference. -/
theorem C4_pfile_epi_projection_undefined (env : ConversionEnv) (p cn : String)
    (c : GERawConverter) (hnot : env.isArchiveFilePath p = false)
    (hc : GERawConverter.construct env p cn = some c) :
    c.scanArchive = none ∧ c.rawObjectType = RawObjectType.PFILE_RAW_TYPE ∧
    (c.lxData.isEpi = true → ∀ w,
      ge_header_to_doc c.scanArchive c.lxData c.processingControl ≠
        some (Except.ok w)) ∧
    (c.lxData.isEpi = true → ∀ mf,
      readMainFields c.lxData c.processingControl = Except.ok mf →
      ge_header_to_doc c.scanArchive c.lxData c.processingControl = none) := by
  have hcases : c.scanArchive = none ∧ c.rawObjectType = RawObjectType.PFILE_RAW_TYPE := by
    unfold GERawConverter.construct at hc
    cases hsel : selectConverter cn
    · simp only [hsel] at hc
      exact Option.noConfusion hc
    · simp only [hsel] at hc
      rw [if_neg (by rw [hnot]; exact Bool.false_ne_true)] at hc
      injection hc with h
      subst h
      exact ⟨rfl, rfl⟩
  refine ⟨hcases.1, hcases.2, ?_, ?_⟩
  · intro hepi w
    rw [hcases.1]
    cases hm : readMainFields c.lxData c.processingControl <;>
      simp [ge_header_to_doc, hm, hepi]
  · intro hepi mf hm
    rw [hcases.1]
    simp [ge_header_to_doc, hm, hepi]

/-- Witness for C4: the sample P-File session carries EPI data and its
projection is undefined. -/
theorem C4_pfile_epi_projection_undefined_witness :
    sampleSessionPfile.scanArchive = none ∧
    ge_header_to_doc sampleSessionPfile.scanArchive sampleSessionPfile.lxData
      sampleSessionPfile.processingControl = none := by
  have h := C4_pfile_epi_projection_undefined sampleEnv "P12345.7" "NIHepiConverter"
    sampleSessionPfile rfl rfl
  exact ⟨h.1, h.2.2.2 rfl sampleMainFields rfl⟩

/-- Claim C5: if reading any projected field is reported absent by (or
throws from) the raw abstraction, projection fails with a MissingField
error naming that field, and returns no partial intermediate document:
a projected document exists only when every field the projection reads
(including the EPI-branch fields for EPI headers) is present. -/
theorem C5_missing_field_fail_fast (sa : Option ScanArchive) (lx : LxDownloadData)
    (pc : ProcessingControl) :
    (∀ e, ge_header_to_doc sa lx pc = some (Except.error e) →
      ∃ n, e = "MissingField: " ++ n ∧ projectedFieldAbsent lx pc n) ∧
    (∀ w, ge_header_to_doc sa lx pc = some (Except.ok w) →
      mainFieldsPresent lx pc ∧ (lx.isEpi = true → epiFieldsPresent lx pc)) := by
  constructor
  · intro e h
    unfold ge_header_to_doc at h
    cases hm : readMainFields lx pc
    case error e1 =>
      simp only [hm, Option.some.injEq, Except.error.injEq] at h
      subst h
      exact readMainFields_error_shape lx pc _ hm
    case ok mf =>
      simp only [hm] at h
      by_cases hepi : lx.isEpi = true
      · rw [if_pos hepi] at h
        cases sa
        · exact Option.noConfusion h
        next archive =>
          cases he : readEpiFields lx.epiControl pc archive
          case error e1 =>
            simp only [he, Option.some.injEq, Except.error.injEq] at h
            subst h
            exact readEpiFields_error_shape lx pc archive _ he
          case ok ef =>
            simp [he] at h
      · rw [if_neg hepi] at h
        simp at h
  · intro w h
    unfold ge_header_to_doc at h
    cases hm : readMainFields lx pc
    case error e1 =>
      simp [hm] at h
    case ok mf =>
      simp only [hm] at h
      refine ⟨readMainFields_ok_present lx pc mf hm, ?_⟩
      intro hepi
      rw [if_pos hepi] at h
      cases sa
      · exact Option.noConfusion h
      next archive =>
        cases he : readEpiFields lx.epiControl pc archive
        case error e1 =>
          simp [he] at h
        case ok ef =>
          exact readEpiFields_ok_present lx pc archive ef he

/-- Witness for C5: removing NumSlices from the sample control makes the
projection fail with exactly the error naming NumSlices. -/
theorem C5_missing_field_fail_fast_witness :
    ∃ n, "MissingField: NumSlices" = "MissingField: " ++ n ∧
      projectedFieldAbsent sampleLxEpi { samplePc with numSlices := none } n :=
  (C5_missing_field_fail_fast (some sampleArchive) sampleLxEpi
    { samplePc with numSlices := none }).1 "MissingField: NumSlices" rfl

/-- Claim C1: in the EPI projection path the derived volume count equals
the archive's available control count divided by (NumSlices + 1) with
truncating integer division, and for availableControlCount = 300 and
numSlices = 29 the emitted num_volumes value is 10. -/
theorem C1_epi_volume_count (sa : ScanArchive) (lx : LxDownloadData)
    (pc : ProcessingControl) (w : XMLWriter) (ns : Int)
    (hepi : lx.isEpi = true) (hns : pc.numSlices = some ns)
    (hok : ge_header_to_doc (some sa) lx pc = some (Except.ok w)) :
    XmlEvent.scalar "num_volumes"
      (toString (numVolumes sa.availableControlCount ns)) ∈ w.events ∧
    numVolumes sa.availableControlCount ns =
      Int.tdiv sa.availableControlCount (ns + 1) ∧
    numVolumes 300 29 = 10 ∧
    toString (numVolumes 300 29) = "10" := by
  refine ⟨?_, rfl, by decide, by decide⟩
  unfold ge_header_to_doc at hok
  cases hm : readMainFields lx pc
  case error e1 =>
    simp [hm] at hok
  case ok mf =>
    simp only [hm] at hok
    rw [if_pos hepi] at hok
    cases he : readEpiFields lx.epiControl pc sa
    case error e1 =>
      simp [he] at hok
    case ok ef =>
      simp only [he, Option.some.injEq, Except.ok.injEq] at hok
      subst hok
      have hfacts := readEpiFields_ok_facts lx.epiControl pc sa ef he
      have hns2 : ef.numSlices = ns := by
        rw [hfacts.1] at hns
        injection hns
      have hacc : ef.availableControlCount = sa.availableControlCount := hfacts.2.1
      rw [← hns2, ← hacc]
      simp [buildHeaderDoc, XMLWriter.startDocument, XMLWriter.startElement,
        XMLWriter.addBooleanElement, XMLWriter.formatIntElement,
        XMLWriter.formatStringElement, XMLWriter.formatNatElement,
        XMLWriter.formatUnsignedElement, XMLWriter.endElement, XMLWriter.endDocument]

/-- Witness for C1 at the scenario values 300 and 29. -/
theorem C1_epi_volume_count_witness :
    XmlEvent.scalar "num_volumes"
      (toString (numVolumes sampleArchive.availableControlCount 29))
      ∈ sampleHeaderWriter.events ∧
    numVolumes sampleArchive.availableControlCount 29 =
      Int.tdiv sampleArchive.availableControlCount (29 + 1) ∧
    numVolumes 300 29 = 10 ∧
    toString (numVolumes 300 29) = "10" :=
  C1_epi_volume_count sampleArchive sampleLxEpi samplePc sampleHeaderWriter 29
    rfl rfl rfl

/-- Claim C2: the projected intermediate document contains an epiParameters
block if and only if the header indicates an EPI acquisition; when present
the block carries ExtraFramesTop, ExtraFramesBottom, AcquiredYRes, the
multiband flag, the integrated-reference-scan flag, the derived volume
count, and NumRefViews equal to ExtraFramesTop + ExtraFramesBottom. -/
theorem C2_epi_block_iff (sa : Option ScanArchive) (lx : LxDownloadData)
    (pc : ProcessingControl) (w : XMLWriter)
    (hok : ge_header_to_doc sa lx pc = some (Except.ok w)) :
    (XmlEvent.openEl "epiParameters" ∈ w.events ↔ lx.isEpi = true) ∧
    (∀ archive ef, lx.isEpi = true → sa = some archive →
      readEpiFields lx.epiControl pc archive = Except.ok ef →
      XmlEvent.scalar "ExtraFramesTop" (toString ef.extraFramesTop) ∈ w.events ∧
      XmlEvent.scalar "ExtraFramesBottom" (toString ef.extraFramesBottom) ∈ w.events ∧
      XmlEvent.scalar "AcquiredYRes" (toString ef.acquiredYRes) ∈ w.events ∧
      XmlEvent.scalar "MultibandEnabled"
        (if ef.multibandEnabled then "true" else "false") ∈ w.events ∧
      XmlEvent.scalar "isEpiRefScanIntegrated"
        (if ef.integratedReferenceScan then "true" else "false") ∈ w.events ∧
      XmlEvent.scalar "num_volumes"
        (toString (numVolumes ef.availableControlCount ef.numSlices)) ∈ w.events ∧
      XmlEvent.scalar "NumRefViews"
        (toString (ef.extraFramesTop + ef.extraFramesBottom)) ∈ w.events) := by
  unfold ge_header_to_doc at hok
  cases hm : readMainFields lx pc
  case error e1 =>
    simp [hm] at hok
  case ok mf =>
    simp only [hm] at hok
    by_cases hepi : lx.isEpi = true
    · rw [if_pos hepi] at hok
      cases sa
      · exact Option.noConfusion hok
      next archive0 =>
        cases he : readEpiFields lx.epiControl pc archive0
        case error e1 =>
          simp [he] at hok
        case ok ef0 =>
          simp only [he, Option.some.injEq, Except.ok.injEq] at hok
          subst hok
          constructor
          · constructor
            · intro _
              exact hepi
            · intro _
              simp [buildHeaderDoc, XMLWriter.startDocument, XMLWriter.startElement,
                XMLWriter.addBooleanElement, XMLWriter.formatIntElement,
                XMLWriter.formatStringElement, XMLWriter.formatNatElement,
                XMLWriter.formatUnsignedElement, XMLWriter.endElement,
                XMLWriter.endDocument]
          · intro archive ef _ hsa he2
            injection hsa with hsa2
            subst hsa2
            rw [he] at he2
            injection he2 with he3
            subst he3
            refine ⟨?_, ?_, ?_, ?_, ?_, ?_, ?_⟩ <;>
              simp [buildHeaderDoc, XMLWriter.startDocument, XMLWriter.startElement,
                XMLWriter.addBooleanElement, XMLWriter.formatIntElement,
                XMLWriter.formatStringElement, XMLWriter.formatNatElement,
                XMLWriter.formatUnsignedElement, XMLWriter.endElement,
                XMLWriter.endDocument]
    · rw [if_neg hepi] at hok
      simp only [Option.some.injEq, Except.ok.injEq] at hok
      subst hok
      constructor
      · constructor
        · intro hmem
          exfalso
          revert hmem
          simp [buildHeaderDoc, XMLWriter.startDocument, XMLWriter.startElement,
            XMLWriter.addBooleanElement, XMLWriter.formatIntElement,
            XMLWriter.formatStringElement, XMLWriter.formatNatElement,
            XMLWriter.formatUnsignedElement, XMLWriter.endElement,
            XMLWriter.endDocument]
        · intro habs
          exact absurd habs hepi
      · intro archive ef habs
        exact absurd habs hepi

/-- Witness for C2 at the scenario values: ExtraFramesTop=2 and
ExtraFramesBottom=1 yield NumRefViews=3, and the block is present. -/
theorem C2_epi_block_iff_witness :
    (XmlEvent.openEl "epiParameters" ∈ sampleHeaderWriter.events ↔
      sampleLxEpi.isEpi = true) ∧
    XmlEvent.scalar "ExtraFramesTop" "2" ∈ sampleHeaderWriter.events ∧
    XmlEvent.scalar "ExtraFramesBottom" "1" ∈ sampleHeaderWriter.events ∧
    XmlEvent.scalar "NumRefViews" "3" ∈ sampleHeaderWriter.events := by
  have h := C2_epi_block_iff (some sampleArchive) sampleLxEpi samplePc
    sampleHeaderWriter rfl
  have h2 := h.2 sampleArchive
    { extraFramesTop := 2, extraFramesBottom := 1, numSlices := 29,
      integratedReferenceScan := true, multibandEnabled := false,
      acquiredYRes := 64, availableControlCount := 300 } rfl rfl rfl
  exact ⟨h.1, h2.1, h2.2.1, h2.2.2.2.2.2.2⟩

/-- A session that already carries the sample stylesheet text. -/
def sampleSessionWithSheet : GERawConverter :=
  useStylesheetString sampleSessionArchive "sample stylesheet text"

/-- The serialized intermediate document of the sample session. -/
def sampleHeaderText : String :=
  sampleHeaderWriter.getXML

/-- An engine whose apply stage throws. -/
def applyFailEngine : XsltEngine :=
  { xmlParseMemory := fun _ => EngineOutcome.ok { id := 1 },
    parseStylesheetDoc := fun _ => EngineOutcome.ok { id := 2 },
    applyStylesheet := fun _ _ => EngineOutcome.threw "boom",
    saveResultToString := fun _ _ => EngineOutcome.ok "out" }

/-- Claim C6: the transform sub-stages (template parse — its two engine
calls —, document parse, apply, serialize) are independent failure points:
whichever engine call fails determines the error, whose message is that
stage's prefix (the prefixes are pairwise distinct, so the stage is named)
followed by the engine's diagnostic text; and no stage ever runs more than
once within a call. -/
theorem C6_transform_stage_errors (eng : XsltEngine) (c : GERawConverter)
    (hdr : String) (hne : c.stylesheet.isEmpty = false)
    (hproj : ge_header_to_xml c.scanArchive c.lxData c.processingControl =
      some (Except.ok hdr))
    (hhdr : hdr.isEmpty = false) :
    ((getIsmrmrdXMLHeaderTraced eng c).2.stylesheetParseCalls ≤ 1 ∧
     (getIsmrmrdXMLHeaderTraced eng c).2.stylesheetCompileCalls ≤ 1 ∧
     (getIsmrmrdXMLHeaderTraced eng c).2.documentParseCalls ≤ 1 ∧
     (getIsmrmrdXMLHeaderTraced eng c).2.applyCalls ≤ 1 ∧
     (getIsmrmrdXMLHeaderTraced eng c).2.serializeCalls ≤ 1) ∧
    (∀ d, eng.xmlParseMemory c.stylesheet = EngineOutcome.threw d →
      getIsmrmrdXMLHeader eng c =
        some (Except.error (stageStylesheetParsePrefix ++ d))) ∧
    (∀ sdoc d, eng.xmlParseMemory c.stylesheet = EngineOutcome.ok sdoc →
      eng.parseStylesheetDoc sdoc = EngineOutcome.threw d →
      getIsmrmrdXMLHeader eng c =
        some (Except.error (stageStylesheetCompilePrefix ++ d))) ∧
    (∀ sdoc sheet d, eng.xmlParseMemory c.stylesheet = EngineOutcome.ok sdoc →
      eng.parseStylesheetDoc sdoc = EngineOutcome.ok sheet →
      eng.xmlParseMemory hdr = EngineOutcome.threw d →
      getIsmrmrdXMLHeader eng c =
        some (Except.error (stageDocumentParsePrefix ++ d))) ∧
    (∀ sdoc sheet pdoc d, eng.xmlParseMemory c.stylesheet = EngineOutcome.ok sdoc →
      eng.parseStylesheetDoc sdoc = EngineOutcome.ok sheet →
      eng.xmlParseMemory hdr = EngineOutcome.ok pdoc →
      eng.applyStylesheet sheet pdoc = EngineOutcome.threw d →
      getIsmrmrdXMLHeader eng c =
        some (Except.error (stageApplyPrefix ++ d))) ∧
    (∀ sdoc sheet pdoc rdoc d,
      eng.xmlParseMemory c.stylesheet = EngineOutcome.ok sdoc →
      eng.parseStylesheetDoc sdoc = EngineOutcome.ok sheet →
      eng.xmlParseMemory hdr = EngineOutcome.ok pdoc →
      eng.applyStylesheet sheet pdoc = EngineOutcome.ok rdoc →
      eng.saveResultToString rdoc sheet = EngineOutcome.threw d →
      getIsmrmrdXMLHeader eng c =
        some (Except.error (stageSerializePrefix ++ d))) ∧
    (stageStylesheetParsePrefix ≠ stageStylesheetCompilePrefix ∧
     stageStylesheetParsePrefix ≠ stageDocumentParsePrefix ∧
     stageStylesheetParsePrefix ≠ stageApplyPrefix ∧
     stageStylesheetParsePrefix ≠ stageSerializePrefix ∧
     stageStylesheetCompilePrefix ≠ stageDocumentParsePrefix ∧
     stageStylesheetCompilePrefix ≠ stageApplyPrefix ∧
     stageStylesheetCompilePrefix ≠ stageSerializePrefix ∧
     stageDocumentParsePrefix ≠ stageApplyPrefix ∧
     stageDocumentParsePrefix ≠ stageSerializePrefix ∧
     stageApplyPrefix ≠ stageSerializePrefix) := by
  have hne2 : ¬(c.stylesheet.isEmpty = true) := by
    rw [hne]
    exact Bool.false_ne_true
  have hhdr2 : ¬(hdr.isEmpty = true) := by
    rw [hhdr]
    exact Bool.false_ne_true
  refine ⟨?_, ?_, ?_, ?_, ?_, ?_, by decide⟩
  · suffices hs : ∀ r, getIsmrmrdXMLHeaderTraced eng c = r →
        (r.2.stylesheetParseCalls ≤ 1 ∧ r.2.stylesheetCompileCalls ≤ 1 ∧
         r.2.documentParseCalls ≤ 1 ∧ r.2.applyCalls ≤ 1 ∧
         r.2.serializeCalls ≤ 1) from hs _ rfl
    intro r hr
    unfold getIsmrmrdXMLHeaderTraced at hr
    rw [if_neg hne2] at hr
    simp only [hproj] at hr
    rw [if_neg hhdr2] at hr
    cases h1 : eng.xmlParseMemory c.stylesheet <;> simp only [h1] at hr
    case threw d =>
      subst hr
      refine ⟨?_, ?_, ?_, ?_, ?_⟩ <;>
        first
        | exact Nat.le_refl 1
        | exact Nat.zero_le 1
    case nullResult =>
      subst hr
      refine ⟨?_, ?_, ?_, ?_, ?_⟩ <;>
        first
        | exact Nat.le_refl 1
        | exact Nat.zero_le 1
    case ok sdoc =>
      cases h2 : eng.parseStylesheetDoc sdoc <;> simp only [h2] at hr
      case threw d =>
        subst hr
        refine ⟨?_, ?_, ?_, ?_, ?_⟩ <;>
          first
          | exact Nat.le_refl 1
          | exact Nat.zero_le 1
      case nullResult =>
        subst hr
        refine ⟨?_, ?_, ?_, ?_, ?_⟩ <;>
          first
          | exact Nat.le_refl 1
          | exact Nat.zero_le 1
      case ok sheet =>
        cases h3 : eng.xmlParseMemory hdr <;> simp only [h3] at hr
        case threw d =>
          subst hr
          refine ⟨?_, ?_, ?_, ?_, ?_⟩ <;>
            first
            | exact Nat.le_refl 1
            | exact Nat.zero_le 1
        case nullResult =>
          subst hr
          refine ⟨?_, ?_, ?_, ?_, ?_⟩ <;>
            first
            | exact Nat.le_refl 1
            | exact Nat.zero_le 1
        case ok pdoc =>
          cases h4 : eng.applyStylesheet sheet pdoc <;> simp only [h4] at hr
          case threw d =>
            subst hr
            refine ⟨?_, ?_, ?_, ?_, ?_⟩ <;>
              first
              | exact Nat.le_refl 1
              | exact Nat.zero_le 1
          case nullResult =>
            subst hr
            refine ⟨?_, ?_, ?_, ?_, ?_⟩ <;>
              first
              | exact Nat.le_refl 1
              | exact Nat.zero_le 1
          case ok rdoc =>
            cases h5 : eng.saveResultToString rdoc sheet <;> simp only [h5] at hr
            all_goals
              subst hr
              exact ⟨Nat.le_refl 1, Nat.le_refl 1, Nat.le_refl 1,
                Nat.le_refl 1, Nat.le_refl 1⟩
  · intro d hd
    suffices hs : ∀ r, getIsmrmrdXMLHeaderTraced eng c = r →
        r.1 = some (Except.error (stageStylesheetParsePrefix ++ d)) from hs _ rfl
    intro r hr
    unfold getIsmrmrdXMLHeaderTraced at hr
    rw [if_neg hne2] at hr
    simp only [hproj] at hr
    rw [if_neg hhdr2] at hr
    simp only [hd] at hr
    subst hr
    rfl
  · intro sdoc d h1 h2
    suffices hs : ∀ r, getIsmrmrdXMLHeaderTraced eng c = r →
        r.1 = some (Except.error (stageStylesheetCompilePrefix ++ d)) from hs _ rfl
    intro r hr
    unfold getIsmrmrdXMLHeaderTraced at hr
    rw [if_neg hne2] at hr
    simp only [hproj] at hr
    rw [if_neg hhdr2] at hr
    simp only [h1] at hr
    simp only [h2] at hr
    subst hr
    rfl
  · intro sdoc sheet d h1 h2 h3
    suffices hs : ∀ r, getIsmrmrdXMLHeaderTraced eng c = r →
        r.1 = some (Except.error (stageDocumentParsePrefix ++ d)) from hs _ rfl
    intro r hr
    unfold getIsmrmrdXMLHeaderTraced at hr
    rw [if_neg hne2] at hr
    simp only [hproj] at hr
    rw [if_neg hhdr2] at hr
    simp only [h1] at hr
    simp only [h2] at hr
    simp only [h3] at hr
    subst hr
    rfl
  · intro sdoc sheet pdoc d h1 h2 h3 h4
    suffices hs : ∀ r, getIsmrmrdXMLHeaderTraced eng c = r →
        r.1 = some (Except.error (stageApplyPrefix ++ d)) from hs _ rfl
    intro r hr
    unfold getIsmrmrdXMLHeaderTraced at hr
    rw [if_neg hne2] at hr
    simp only [hproj] at hr
    rw [if_neg hhdr2] at hr
    simp only [h1] at hr
    simp only [h2] at hr
    simp only [h3] at hr
    simp only [h4] at hr
    subst hr
    rfl
  · intro sdoc sheet pdoc rdoc d h1 h2 h3 h4 h5
    suffices hs : ∀ r, getIsmrmrdXMLHeaderTraced eng c = r →
        r.1 = some (Except.error (stageSerializePrefix ++ d)) from hs _ rfl
    intro r hr
    unfold getIsmrmrdXMLHeaderTraced at hr
    rw [if_neg hne2] at hr
    simp only [hproj] at hr
    rw [if_neg hhdr2] at hr
    simp only [h1] at hr
    simp only [h2] at hr
    simp only [h3] at hr
    simp only [h4] at hr
    simp only [h5] at hr
    subst hr
    rfl

set_option maxRecDepth 8000 in
/-- Witness for C6: a concrete engine failing at the apply stage produces
exactly the apply-stage error around the engine diagnostic. -/
theorem C6_transform_stage_errors_witness :
    getIsmrmrdXMLHeader applyFailEngine sampleSessionWithSheet =
      some (Except.error (stageApplyPrefix ++ "boom")) := by
  have h := C6_transform_stage_errors applyFailEngine sampleSessionWithSheet
    sampleHeaderText rfl rfl rfl
  exact h.2.2.2.2.1 { id := 1 } { id := 2 } { id := 1 } "boom" rfl rfl rfl rfl

end GEToIsmrmrd
